import Mathlib

/-!
Verification development for the financial dashboard in `src/app.py`.

The module is embedded shallowly: Python numbers (ints and floats) are
modelled as exact rationals `ℚ`, Python `None` and missing dict keys as
`Option`, and statements that can raise an exception as computations in
`Except String`.  The `except Exception` handlers of the source correspond
to `match` on the `Except` value.  Names loaded from the module's global
namespace are resolved against an explicit table of the module's actual
top-level bindings, because several names used by the source are bound
nowhere in the module.
-/

/-- A Python runtime value as it appears in the records built by
`obtener_datos_financieros`: `None`, a number, a string, or an opaque
object (module or function) named by its global binding. -/
inductive PyVal where
  | none : PyVal
  | num : ℚ → PyVal
  | str : String → PyVal
  | objeto : String → PyVal
deriving DecidableEq, Repr

/-- Round a rational to the nearest integer, ties to even: the rounding
used by Python's built-in `round`. -/
def redondear_ent_par (q : ℚ) : ℤ :=
  if q - ⌊q⌋ < 1/2 then ⌊q⌋
  else if 1/2 < q - ⌊q⌋ then ⌊q⌋ + 1
  else if ⌊q⌋ % 2 = 0 then ⌊q⌋ else ⌊q⌋ + 1

/-- Python `round(q, 2)`: round to two decimal places, ties to even. -/
def redondear2 (q : ℚ) : ℚ := redondear_ent_par (q * 100) / 100

/-- The decimal digit `d` (`d < 10`) as a character. -/
def digito_char (d : ℕ) : Char := Char.ofNat (48 + d)

/-- Decimal representation of a natural number, most significant digit
first (`"0"` for zero), as Python prints the integer part of a float. -/
def chars_nat (n : ℕ) : List Char :=
  if n = 0 then ['0'] else ((Nat.digits 10 n).reverse).map digito_char

/-- Exactly two decimal digits for `m < 100`, as the fractional part of a
`:.2f` rendering. -/
def chars_dos (m : ℕ) : List Char := [digito_char (m / 10), digito_char (m % 10)]

/-- Python `f"{v:.2f}"`: the fixed-point rendering of `v` with exactly two
decimal places (the value is rounded to a multiple of 1/100 first). -/
def chars_2f (v : ℚ) : List Char :=
  (if redondear_ent_par (v * 100) < 0 then ['-'] else []) ++
    chars_nat ((redondear_ent_par (v * 100)).natAbs / 100) ++
    '.' :: chars_dos ((redondear_ent_par (v * 100)).natAbs % 100)

/-- Line 16 of `src/app.py`: `f"{round(valor * 100, 2):.2f}%"` — the
percentage string produced for a numeric value `q`. -/
def cadena_porcentaje (q : ℚ) : String :=
  String.mk (chars_2f (redondear2 (q * 100)) ++ ['%'])

/-- Lines 6-23 of `src/app.py`, `redondear_y_formatear(valor, es_porcentaje)`:
`None` and the string `"N/D"` map to `"N/D"` (line 10); in percentage mode a
number is rendered as a two-decimal percent string and anything else is
`"N/D"` (lines 14-18); otherwise a number is rounded to two decimals and
returned as a number, anything else is `"N/D"` (line 21).  The body cannot
raise, so the `except` at line 22 is dead. -/
def redondear_y_formatear (valor : PyVal) (es_porcentaje : Bool) : PyVal :=
  if valor = PyVal.none ∨ valor = PyVal.str "N/D" then PyVal.str "N/D"
  else if es_porcentaje then
    match valor with
    | PyVal.num q => PyVal.str (cadena_porcentaje q)
    | _ => PyVal.str "N/D"
  else
    match valor with
    | PyVal.num q => PyVal.num (redondear2 q)
    | _ => PyVal.str "N/D"

/-- Python truthiness of `not x` for `x` either `None` or a bool:
`not None` and `not False` are `True`. -/
def py_no (b : Option Bool) : Bool :=
  match b with
  | Option.none => true
  | Option.some v => !v

/-- Line 154 of `src/app.py`: the expression stored under the `"EVA"` key,
`redondear_y_formatear("N/D" if not creando_valor else "Creando Valor")`
(with the default `es_porcentaje=False`). -/
def eva_campo (creando_valor : Option Bool) : PyVal :=
  redondear_y_formatear
    (if py_no creando_valor then PyVal.str "N/D" else PyVal.str "Creando Valor") false

/-- The user-adjustable configuration read in the sidebar (lines 180-187 of
`src/app.py`): the module-level globals `Rf`, `Rm`, `Tc` and the maximum
ticker count.  They are in scope for every function of the module; outside
`main` no function references them. -/
structure Config where
  Rf : ℚ
  Rm : ℚ
  Tc : ℚ
  max_tickers : ℕ
deriving DecidableEq, Repr

/-- The sidebar defaults: 4.35 % risk-free rate, 8.5 % expected market
return, 21 % corporate tax rate, at most 10 tickers (lines 180-187). -/
def cfg_defecto : Config := ⟨435/10000, 85/1000, 21/100, 10⟩

/-- The data one `yf.Ticker` fetch exposes to the module, with every field
optional: `info` keys, first-column balance-sheet / income-statement /
cash-flow line items (a `none` models a missing key or a missing row).
Field names follow the keys the source reads. -/
structure Snapshot where
  cap_mercado : Option ℚ := Option.none
  beta : Option ℚ := Option.none
  precio_actual : Option ℚ := Option.none
  nombre_largo : Option String := Option.none
  sector : Option String := Option.none
  pais : Option String := Option.none
  industria : Option String := Option.none
  pe : Option ℚ := Option.none
  pb : Option ℚ := Option.none
  dividendo : Option ℚ := Option.none
  payout : Option ℚ := Option.none
  roa : Option ℚ := Option.none
  roe : Option ℚ := Option.none
  razon_corriente : Option ℚ := Option.none
  razon_rapida : Option ℚ := Option.none
  razon_caja : Option ℚ := Option.none
  margen_operativo : Option ℚ := Option.none
  margen_neto : Option ℚ := Option.none
  acciones : Option ℚ := Option.none
  deuda_total_bs : Option ℚ := Option.none
  efectivo_bs : Option ℚ := Option.none
  patrimonio_comun_bs : Option ℚ := Option.none
  pasivos_corrientes_bs : Option ℚ := Option.none
  gastos_intereses_fin : Option ℚ := Option.none
  ebt_fin : Option ℚ := Option.none
  impuestos_fin : Option ℚ := Option.none
  ebit_fin : Option ℚ := Option.none
  fcf_cf : Option ℚ := Option.none
  ocf_cf : Option ℚ := Option.none
deriving DecidableEq, Repr

/-- The local variables of `calcular_wacc_y_roic` (lines 34-68 of
`src/app.py`), recorded so theorems can refer to intermediate values. -/
structure LocalesWacc where
  ke : ℚ
  kd : ℚ
  tasa_impuestos : ℚ
  total_capital : ℚ
  wacc : ℚ
  nopat : ℚ
  capital_invertido : ℚ
  roic : ℚ
  diferencia_roic_wacc : ℚ
  creando_valor : Bool
deriving DecidableEq, Repr

/-- Lines 34-71 of `src/app.py`: the `try`-body of `calcular_wacc_y_roic`
after a successful fetch.  The `info.get` defaults are 0 for `marketCap`
and 1 for `beta` (lines 34-35); missing statement rows default to 0
(lines 41-49); `kd` and the effective tax rate guard their divisions
(lines 52, 55, with a hard-coded 21 % fallback), but the WACC expression at
line 59 divides by `total_capital` unguarded, so `total_capital = 0` raises
(a `ZeroDivisionError`, caught by the handler at line 72).  The sidebar
globals `Rf`, `Rm`, `Tc` are in scope but the body never reads them, hence
the unused `_cfg`; the rates at lines 36-37 are the hard-coded constants
`rf = 0.02` and `equity_risk_premium = 0.05`. -/
def locales_wacc (_cfg : Config) (empresa : Snapshot) : Except String LocalesWacc :=
  let market_cap := empresa.cap_mercado.getD 0
  let beta := empresa.beta.getD 1
  let rf : ℚ := 2/100
  let equity_risk_premium : ℚ := 5/100
  let ke := rf + beta * equity_risk_premium
  let deuda_total := empresa.deuda_total_bs.getD 0
  let efectivo := empresa.efectivo_bs.getD 0
  let patrimonio_neto := empresa.patrimonio_comun_bs.getD 0
  let gastos_intereses := empresa.gastos_intereses_fin.getD 0
  let ebt := empresa.ebt_fin.getD 0
  let impuestos := empresa.impuestos_fin.getD 0
  let ebit := empresa.ebit_fin.getD 0
  let kd := if deuda_total ≠ 0 then gastos_intereses / deuda_total else 0
  let tasa_impuestos := if ebt ≠ 0 then impuestos / ebt else 21/100
  let total_capital := market_cap + deuda_total
  if total_capital = 0 then Except.error "division by zero"
  else
    let wacc := (market_cap / total_capital) * ke +
      (deuda_total / total_capital) * kd * (1 - tasa_impuestos)
    let nopat := ebit * (1 - tasa_impuestos)
    let capital_invertido := patrimonio_neto + (deuda_total - efectivo)
    let roic := if capital_invertido ≠ 0 then nopat / capital_invertido else 0
    let diferencia_roic_wacc := roic - wacc
    let creando_valor := decide (wacc < roic)
    Except.ok ⟨ke, kd, tasa_impuestos, total_capital, wacc, nopat,
      capital_invertido, roic, diferencia_roic_wacc, creando_valor⟩

/-- Lines 25-74 of `src/app.py`, `calcular_wacc_y_roic(ticker)`: fetch the
ticker's data (line 31, inside the `try`), run the body, and return the
triple `(wacc, roic, creando_valor)`; any exception — a failed fetch or the
unguarded division — is caught at line 72 and the function returns
`(None, None, None)`.  `entorno` is the external data provider: what
`yf.Ticker(t)` yields for each ticker string. -/
def calcular_wacc_y_roic (cfg : Config) (entorno : String → Except String Snapshot)
    (ticker : String) : Option ℚ × Option ℚ × Option Bool :=
  match (entorno ticker).bind (locales_wacc cfg) with
  | Except.ok l => (Option.some l.wacc, Option.some l.roic, Option.some l.creando_valor)
  | Except.error _ => (Option.none, Option.none, Option.none)

/-- Modelled from the spec: `calcular_crecimiento_historico` is called at
lines 121-123 of `src/app.py` but is defined nowhere under `src/`; §4.3 of
the specification describes the missing `GrowthCalculator`.  Input is a
multi-period line-item series, most recent period first, each entry
possibly null; the window keeps at most four periods; fewer than two
non-null values in the window yields `none`; otherwise, with `reciente` the
first retained value, `antiguo` the last, and `n` one less than the count
of retained values, the CAGR is `(reciente/antiguo)^(1/n) - 1`, undefined
when `antiguo = 0`.  (The spec does not address a negative base; the model
uses the real power `Real.rpow` there.) -/
noncomputable def calcular_crecimiento_historico (serie : List (Option ℚ)) : Option ℝ :=
  match (serie.take 4).filterMap id with
  | [] => Option.none
  | [_] => Option.none
  | reciente :: siguiente :: resto =>
      let antiguo := (siguiente :: resto).getLast (by simp)
      let n : ℕ := (reciente :: siguiente :: resto).length - 1
      if antiguo = 0 then Option.none
      else Option.some (Real.rpow ((reciente / antiguo : ℚ) : ℝ) ((n : ℝ)⁻¹) - 1)

/-- The names actually bound at the top level of the module `src/app.py`:
the four imports (lines 1-4) and the three functions plus `main`
(lines 6, 25, 76, 169).  Note that `matplotlib.pyplot` is never imported
and that no other global is assigned outside `main`. -/
def globales_modulo : List String :=
  ["st", "pd", "yf", "time",
   "redondear_y_formatear", "calcular_wacc_y_roic", "obtener_datos_financieros", "main"]

/-- Python `LOAD_GLOBAL`: resolving a bare name against the module's global
namespace.  An unbound name raises `NameError` with Python's message. -/
def cargar_global (n : String) : Except String PyVal :=
  if globales_modulo.contains n then Except.ok (PyVal.objeto n)
  else Except.error ("name '" ++ n ++ "' is not defined")

/-- Lines 121-123 of `src/app.py`: a call
`calcular_crecimiento_historico(tabla, fila)`.  Python resolves the callee
name before evaluating the arguments; the name is bound nowhere in the
module, so the resolution raises `NameError` and the call itself never
happens (the trailing error is unreachable: the name is not in
`globales_modulo`).  The argument expressions are effect-free locals and
are never evaluated, so only the row label is kept for reference. -/
def llamada_crecimiento (_fila : String) : Except String PyVal := do
  let _ ← cargar_global "calcular_crecimiento_historico"
  Except.error "objeto no invocable en el modelo"

/-- Python truthiness of an optional number: `None` and `0` are falsy. -/
def verdadero (o : Option ℚ) : Bool :=
  match o with
  | Option.none => false
  | Option.some q => decide (q ≠ 0)

/-- An optional number as the Python value it came from. -/
def opcional (o : Option ℚ) : PyVal :=
  match o with
  | Option.none => PyVal.none
  | Option.some q => PyVal.num q

/-- Python division, which raises `ZeroDivisionError` on a zero divisor. -/
def division (a b : ℚ) : Except String ℚ :=
  if b = 0 then Except.error "division by zero" else Except.ok (a / b)

/-- Line 115 of `src/app.py`:
`pfcf = price / (fcf / shares) if fcf and shares else None`.
When both `fcf` and `shares` are truthy (non-null and non-zero) the
divisions run — and a `None` price makes the outer `/` raise `TypeError`;
otherwise the value is `None` without evaluating the divisions. -/
def pfcf_calc (price fcf shares : Option ℚ) : Except String (Option ℚ) :=
  if verdadero fcf && verdadero shares then
    match price with
    | Option.none => Except.error "unsupported operand type(s) for /: 'NoneType' and 'float'"
    | Option.some p => do
        let d ← division (fcf.getD 0) (shares.getD 0)
        let v ← division p d
        Except.ok (Option.some v)
  else Except.ok Option.none

/-- Line 129 of `src/app.py`:
`cash_flow_ratio = operating_cash_flow / current_liabilities if operating_cash_flow and current_liabilities else None`. -/
def razon_flujo_calc (ocf cl : Option ℚ) : Except String (Option ℚ) :=
  if verdadero ocf && verdadero cl then do
    let v ← division (ocf.getD 0) (cl.getD 0)
    Except.ok (Option.some v)
  else Except.ok Option.none

/-- The value `obtener_datos_financieros` returns: the metrics dict built
at lines 132-164, or the error dict `{"Ticker": ..., "Error": ...}` of
line 166. -/
inductive Registro where
  | metricas : List (String × PyVal) → Registro
  | errorRec : String → String → Registro
deriving DecidableEq, Repr

/-- Lines 77-164 of `src/app.py`: the `try`-body of
`obtener_datos_financieros`.  After the fetch (line 78) and the scalar
reads (lines 85-115, where only line 115 can raise), line 118 runs
`calcular_wacc_y_roic` (which swallows its own errors), and lines 121-123
resolve the unbound global `calcular_crecimiento_historico`, raising
`NameError`; everything from there on — including the loads of the unbound
globals `ltde`, `de`, `total_debt`, `patrimonio` inside the dict literal
(lines 148, 149, 155, 156) — is dead code, transcribed for fidelity.  The
effectful loads of the dict literal are sequenced before the literal in
their source order; the interleaved field expressions are pure, so the
order of effects is preserved. -/
def cuerpo_datos (cfg : Config) (entorno : String → Except String Snapshot)
    (ticker : String) : Except String Registro := do
  let stock ← entorno ticker
  let price := stock.precio_actual
  let name := stock.nombre_largo.getD ticker
  let sector := stock.sector.getD "N/D"
  let country := stock.pais.getD "N/D"
  let industry := stock.industria.getD "N/D"
  let pe := stock.pe
  let pb := stock.pb
  let dividend := stock.dividendo
  let payout := stock.payout
  let dividend_est : ℚ := if verdadero dividend then dividend.getD 0 else 0
  let roa := stock.roa
  let roe := stock.roe
  let current_r := stock.razon_corriente
  let quick_r := stock.razon_rapida
  let op_margin := stock.margen_operativo
  let profit_margin := stock.margen_neto
  let fcf := stock.fcf_cf
  let shares := stock.acciones
  let pfcf ← pfcf_calc price fcf shares
  let wr := calcular_wacc_y_roic cfg entorno ticker
  let revenue_growth ← llamada_crecimiento "Total Revenue"
  let eps_growth ← llamada_crecimiento "Net Income"
  let fcf_growth ← llamada_crecimiento "Free Cash Flow"
  let cash_r := stock.razon_caja
  let operating_cash_flow := stock.ocf_cf
  let current_liabilities := stock.pasivos_corrientes_bs
  let cash_flow_r ← razon_flujo_calc operating_cash_flow current_liabilities
  let v_ltde ← cargar_global "ltde"
  let v_de ← cargar_global "de"
  let v_eva := eva_campo wr.2.2
  let v_total_debt ← cargar_global "total_debt"
  let v_patrim ← cargar_global "patrimonio"
  Except.ok (Registro.metricas
    [("Ticker", PyVal.str ticker),
     ("Nombre", PyVal.str name),
     ("Sector", PyVal.str sector),
     ("País", PyVal.str country),
     ("Industria", PyVal.str industry),
     ("Precio", redondear_y_formatear (opcional price) false),
     ("P/E", redondear_y_formatear (opcional pe) false),
     ("P/B", redondear_y_formatear (opcional pb) false),
     ("P/FCF", redondear_y_formatear (opcional pfcf) false),
     ("Dividend Est.", redondear_y_formatear (PyVal.num dividend_est) false),
     ("Payout Ratio", redondear_y_formatear (opcional payout) true),
     ("ROA", redondear_y_formatear (opcional roa) true),
     ("ROE", redondear_y_formatear (opcional roe) true),
     ("Current Ratio", redondear_y_formatear (opcional current_r) false),
     ("Quick Ratio", redondear_y_formatear (opcional quick_r) false),
     ("LtDebt/Eq", redondear_y_formatear v_ltde false),
     ("Debt/Eq", redondear_y_formatear v_de false),
     ("Oper Margin", redondear_y_formatear (opcional op_margin) true),
     ("Profit Margin", redondear_y_formatear (opcional profit_margin) true),
     ("WACC", redondear_y_formatear (opcional wr.1) true),
     ("ROIC", redondear_y_formatear (opcional wr.2.1) true),
     ("EVA", v_eva),
     ("Deuda Total", redondear_y_formatear v_total_debt false),
     ("Patrimonio Neto", redondear_y_formatear v_patrim false),
     ("Revenue Growth", redondear_y_formatear revenue_growth true),
     ("EPS Growth", redondear_y_formatear eps_growth true),
     ("FCF Growth", redondear_y_formatear fcf_growth true),
     ("Cash Ratio", redondear_y_formatear (opcional cash_r) false),
     ("Cash Flow Ratio", redondear_y_formatear (opcional cash_flow_r) false),
     ("Operating Cash Flow", redondear_y_formatear (opcional operating_cash_flow) false),
     ("Current Liabilities", redondear_y_formatear (opcional current_liabilities) false)])

/-- Lines 76-166 of `src/app.py`, `obtener_datos_financieros(ticker)`: run
the `try`-body; any exception is caught at line 165 and turned into
`{"Ticker": ticker, "Error": str(e)}`. -/
def obtener_datos_financieros (cfg : Config) (entorno : String → Except String Snapshot)
    (ticker : String) : Registro :=
  match cuerpo_datos cfg entorno ticker with
  | Except.ok r => r
  | Except.error e => Registro.errorRec ticker e

/-- Python dict assignment `d[k] = v`: if the key is present its value is
replaced in place (insertion order kept), otherwise the pair is appended. -/
def insertar : List (String × Registro) → String → Registro → List (String × Registro)
  | [], k, v => [(k, v)]
  | (k', v') :: resto, k, v =>
      if k' = k then (k', v) :: resto else (k', v') :: insertar resto k v

/-- Python dict lookup `d[k]` as an optional value. -/
def buscar : List (String × Registro) → String → Option Registro
  | [], _ => Option.none
  | (k', v) :: resto, k => if k' = k then Option.some v else buscar resto k

/-- The keys of the mapping, in insertion order (Python dict order). -/
def claves (m : List (String × Registro)) : List String := m.map Prod.fst

/-- Lines 197-208 of `src/app.py`: the batch loop of `main`.  Starting from
the empty dict `resultados`, each ticker in order gets
`resultados[t] = obtener_datos_financieros(t)`; the progress display and
the `time.sleep(1)` pacing have no effect on the mapping and are omitted. -/
def bucle_resultados (cfg : Config) (entorno : String → Except String Snapshot)
    (tickers : List String) : List (String × Registro) :=
  tickers.foldl (fun m t => insertar m t (obtener_datos_financieros cfg entorno t)) []

/-- Split a character list at every comma, Python `str.split(",")`. -/
def dividir_comas : List Char → List (List Char)
  | [] => [[]]
  | c :: resto =>
      match dividir_comas resto with
      | [] => [[c]]
      | a :: rs => if c = ',' then [] :: a :: rs else (c :: a) :: rs

/-- Python `str.strip()` restricted to the space character (the only
whitespace the ticker input contains). -/
def recortar (l : List Char) : List Char :=
  ((l.dropWhile (fun c => c = ' ')).reverse.dropWhile (fun c => c = ' ')).reverse

/-- Line 190 of `src/app.py`:
`[t.strip().upper() for t in tickers_input.split(",") if t.strip()][:max_tickers]` —
split on commas, keep the entries that are non-empty after stripping,
upper-case them, and truncate to the maximum count.  No deduplication
happens here.  (`Char.toUpper` models Python `str.upper` on ASCII.) -/
def procesar_tickers (entrada : String) (maximo : ℕ) : List String :=
  (((dividir_comas entrada.data).filterMap fun t =>
      if recortar t = [] then Option.none
      else Option.some (String.mk ((recortar t).map Char.toUpper))).take maximo)

/-- First-occurrence deduplication, keeping order. -/
def deduplicar (l : List String) : List String :=
  l.foldl (fun acc t => if t ∈ acc then acc else acc ++ [t]) []

/-- The key sequence as §3 of the spec words it: the deduplicated,
upper-cased, order-preserved input tickers, truncated to the configured
maximum count — that is, deduplication applied before truncation.  Stated
from the spec's words only, for comparison with the source's
`procesar_tickers`. -/
def claves_segun_spec (entrada : String) (maximo : ℕ) : List String :=
  (deduplicar ((dividir_comas entrada.data).filterMap fun t =>
      if recortar t = [] then Option.none
      else Option.some (String.mk ((recortar t).map Char.toUpper)))).take maximo

/-- A data provider for which every fetch fails. -/
def entorno_falla : String → Except String Snapshot :=
  fun _ => Except.error "HTTPError"

/-- A data provider returning the same snapshot for every ticker. -/
def entorno_fijo (s : Snapshot) : String → Except String Snapshot :=
  fun _ => Except.ok s

def sCien : Snapshot := { cap_mercado := Option.some 100 }

def sBeta1 : Snapshot := { cap_mercado := Option.some 100, beta := Option.some 1 }

def sTasa : Snapshot :=
  { cap_mercado := Option.some 100, ebt_fin := Option.some 100,
    impuestos_fin := Option.some 30, ebit_fin := Option.some 50 }

/-- The locals `calcular_wacc_y_roic` computes for a snapshot whose only
data are a market cap of 100 (and possibly an explicit beta of 1). -/
def lCien : LocalesWacc := ⟨7/100, 0, 21/100, 100, 7/100, 0, 0, 0, -(7/100), false⟩

/-- The locals for `sTasa`: effective tax rate 30/100, NOPAT 35. -/
def lTasa : LocalesWacc := ⟨7/100, 0, 3/10, 100, 7/100, 35, 0, 0, -(7/100), false⟩

/-- Strip one trailing percent marker, as the chart code's
`.str.rstrip("%")` does on the formatter's output (§4.5 of the spec:
the consumer strips the marker and re-parses). -/
def quitar_pct (l : List Char) : List Char :=
  if l.getLast? = Option.some '%' then l.dropLast else l

/-- Strip the percent marker from a rendered percentage string. -/
def sin_marcador (s : String) : String := String.mk (quitar_pct s.data)

/-- A decimal digit character back to its value. -/
def char_digito (c : Char) : Option ℕ :=
  if 48 ≤ c.toNat ∧ c.toNat ≤ 57 then Option.some (c.toNat - 48) else Option.none

/-- Digit-by-digit parse of a character run (none on a non-digit). -/
def digitos_aux : List Char → Option (List ℕ)
  | [] => Option.some []
  | c :: resto => do
      let d ← char_digito c
      let ds ← digitos_aux resto
      Option.some (d :: ds)

/-- All-digit parse of a character run (none when empty or non-digit). -/
def digitos_de (l : List Char) : Option (List ℕ) :=
  match l with
  | [] => Option.none
  | _ => digitos_aux l

/-- The number a big-endian digit list denotes. -/
def valor_digitos (ds : List ℕ) : ℕ := ds.foldl (fun a d => 10 * a + d) 0

/-- Split a character run at the first decimal point, if any. -/
def buscar_punto : List Char → Option (List Char × List Char)
  | [] => Option.none
  | c :: resto =>
      if c = '.' then Option.some ([], resto)
      else (buscar_punto resto).map (fun p => (c :: p.1, p.2))

/-- Parse an unsigned decimal numeral, with optional fractional part, as
Python `float` does on the formatter's output. -/
def parsear_pos (l : List Char) : Option ℚ :=
  match buscar_punto l with
  | Option.none => (digitos_de l).map (fun ds => ((valor_digitos ds : ℕ) : ℚ))
  | Option.some (ent, frac) => do
      let dse ← digitos_de ent
      let dsf ← digitos_de frac
      Option.some ((valor_digitos dse : ℚ) + (valor_digitos dsf : ℚ) / (10:ℚ) ^ frac.length)

/-- Parse a signed decimal numeral (Python `float` on the stripped
percentage string). -/
def parsear_numero (s : String) : Option ℚ :=
  if s.data.head? = Option.some '-' then (parsear_pos s.data.tail).map (fun q => -q)
  else parsear_pos s.data

lemma buscar_insertar (m : List (String × Registro)) (k t : String) (v : Registro) :
    buscar (insertar m k v) t = if k = t then Option.some v else buscar m t := by
  induction m with
  | nil => by_cases h : k = t <;> simp [insertar, buscar, h]
  | cons p resto ih =>
      obtain ⟨k1, v1⟩ := p
      by_cases h1 : k1 = k
      · subst h1
        by_cases h2 : k1 = t <;> simp [insertar, buscar, h2]
      · by_cases h2 : k1 = t
        · subst h2
          have hkt : ¬ k = k1 := fun hh => h1 hh.symm
          simp [insertar, buscar, h1, hkt]
        · simp [insertar, buscar, h1, h2, ih]

lemma buscar_foldl (f : String → Registro) (l : List String)
    (m : List (String × Registro)) (t : String) :
    buscar (l.foldl (fun m1 t1 => insertar m1 t1 (f t1)) m) t =
      if t ∈ l then Option.some (f t) else buscar m t := by
  induction l generalizing m with
  | nil => simp
  | cons x xs ih =>
      simp only [List.foldl_cons]
      rw [ih]
      by_cases hx : t ∈ xs
      · simp [hx]
      · by_cases ht : t = x
        · subst ht
          simp [hx, buscar_insertar]
        · have hxt : ¬ x = t := fun hh => ht hh.symm
          simp [hx, ht, buscar_insertar, hxt]

lemma claves_insertar (m : List (String × Registro)) (k : String) (v : Registro) :
    claves (insertar m k v) = if k ∈ claves m then claves m else claves m ++ [k] := by
  induction m with
  | nil => simp [insertar, claves]
  | cons p resto ih =>
      obtain ⟨k1, v1⟩ := p
      by_cases h1 : k1 = k
      · subst h1
        simp [insertar, claves]
      · have hk : ¬ k = k1 := fun hh => h1 hh.symm
        have ih2 : List.map Prod.fst (insertar resto k v) =
            if k ∈ List.map Prod.fst resto then List.map Prod.fst resto
            else List.map Prod.fst resto ++ [k] := by
          simpa [claves] using ih
        by_cases h2 : k ∈ List.map Prod.fst resto <;>
          simp [insertar, claves, h1, hk, h2, ih2]

lemma claves_foldl (f : String → Registro) (l : List String)
    (m : List (String × Registro)) :
    claves (l.foldl (fun m1 t1 => insertar m1 t1 (f t1)) m) =
      l.foldl (fun acc t => if t ∈ acc then acc else acc ++ [t]) (claves m) := by
  induction l generalizing m with
  | nil => simp
  | cons x xs ih =>
      simp only [List.foldl_cons]
      rw [ih, claves_insertar]

lemma claves_bucle (cfg : Config) (entorno : String → Except String Snapshot)
    (tickers : List String) :
    claves (bucle_resultados cfg entorno tickers) = deduplicar tickers := by
  unfold bucle_resultados deduplicar
  rw [claves_foldl]
  rfl

lemma cargar_global_crecimiento :
    cargar_global "calcular_crecimiento_historico" =
      Except.error "name 'calcular_crecimiento_historico' is not defined" := by rfl

lemma cuerpo_datos_err (cfg : Config) (entorno : String → Except String Snapshot)
    (t razon : String) (h : entorno t = Except.error razon) :
    cuerpo_datos cfg entorno t = Except.error razon := by
  unfold cuerpo_datos
  rw [h]
  rfl

lemma cuerpo_datos_siempre_error (cfg : Config) (entorno : String → Except String Snapshot)
    (t : String) : ∃ e, cuerpo_datos cfg entorno t = Except.error e := by
  cases hs : entorno t with
  | error e => exact ⟨e, cuerpo_datos_err cfg entorno t e hs⟩
  | ok s =>
      unfold cuerpo_datos
      rw [hs]
      cases hp : pfcf_calc s.precio_actual s.fcf_cf s.acciones with
      | error e => exact ⟨e, by simp [hp, Bind.bind, Except.bind]⟩
      | ok v =>
          refine ⟨"name 'calcular_crecimiento_historico' is not defined", ?_⟩
          simp [hp, Bind.bind, Except.bind, llamada_crecimiento, cargar_global, globales_modulo]

lemma locales_campos (cfg : Config) (s : Snapshot) (l : LocalesWacc)
    (h : locales_wacc cfg s = Except.ok l) :
    l.ke = 2/100 + s.beta.getD 1 * (5/100) ∧
    l.tasa_impuestos =
      (if s.ebt_fin.getD 0 ≠ 0 then s.impuestos_fin.getD 0 / s.ebt_fin.getD 0 else 21/100) ∧
    l.nopat = s.ebit_fin.getD 0 * (1 - l.tasa_impuestos) ∧
    l.capital_invertido =
      s.patrimonio_comun_bs.getD 0 + (s.deuda_total_bs.getD 0 - s.efectivo_bs.getD 0) ∧
    l.roic = (if l.capital_invertido ≠ 0 then l.nopat / l.capital_invertido else 0) ∧
    l.creando_valor = decide (l.wacc < l.roic) := by
  simp only [locales_wacc] at h
  by_cases h0 : s.cap_mercado.getD 0 + s.deuda_total_bs.getD 0 = 0
  · rw [if_pos h0] at h
    cases h
  · rw [if_neg h0] at h
    injection h with h1
    subst h1
    exact ⟨rfl, rfl, rfl, rfl, rfl, rfl⟩

lemma calcular_ok (cfg : Config) (entorno : String → Except String Snapshot)
    (t : String) (s : Snapshot) (l : LocalesWacc)
    (h1 : entorno t = Except.ok s) (h2 : locales_wacc cfg s = Except.ok l) :
    calcular_wacc_y_roic cfg entorno t =
      (Option.some l.wacc, Option.some l.roic, Option.some l.creando_valor) := by
  unfold calcular_wacc_y_roic
  rw [h1]
  simp [Except.bind, h2]

lemma locales_sBeta1 : locales_wacc cfg_defecto sBeta1 = Except.ok lCien := by
  norm_num [locales_wacc, sBeta1, lCien]

lemma locales_sCien : locales_wacc cfg_defecto sCien = Except.ok lCien := by
  norm_num [locales_wacc, sCien, lCien]

lemma locales_sTasa : locales_wacc cfg_defecto sTasa = Except.ok lTasa := by
  norm_num [locales_wacc, sTasa, lTasa]

lemma char_digito_digito (d : ℕ) (h : d < 10) :
    char_digito (digito_char d) = Option.some d ∧
    digito_char d ≠ '.' ∧ digito_char d ≠ '-' := by
  interval_cases d <;> exact ⟨by decide, by decide, by decide⟩

lemma redondear_ent_par_int (k : ℤ) : redondear_ent_par (k:ℚ) = k := by
  norm_num [redondear_ent_par, Int.floor_intCast]

lemma redondear_ent_par_cerca (t : ℚ) : |(redondear_ent_par t : ℚ) - t| ≤ 1/2 := by
  have h1 : ((⌊t⌋ : ℤ) : ℚ) ≤ t := Int.floor_le t
  have h2 : t < ((⌊t⌋ : ℤ) : ℚ) + 1 := Int.lt_floor_add_one t
  unfold redondear_ent_par
  split_ifs with ha hb hc <;>
    (rw [abs_le]; constructor <;> push_cast <;> linarith)

lemma digitos_aux_map (ds : List ℕ) (h : ∀ d ∈ ds, d < 10) :
    digitos_aux (ds.map digito_char) = Option.some ds := by
  induction ds with
  | nil => rfl
  | cons d resto ih =>
      have hd := (char_digito_digito d (h d (by simp))).1
      have hr := ih (fun x hx => h x (by simp [hx]))
      simp [digitos_aux, hd, hr]

lemma digitos_de_map (ds : List ℕ) (h : ∀ d ∈ ds, d < 10) (hne : ds ≠ []) :
    digitos_de (ds.map digito_char) = Option.some ds := by
  cases ds with
  | nil => exact absurd rfl hne
  | cons d resto =>
      show digitos_aux ((d :: resto).map digito_char) = _
      exact digitos_aux_map (d :: resto) h

lemma valor_digitos_reverse (n : ℕ) :
    valor_digitos ((Nat.digits 10 n).reverse) = n := by
  unfold valor_digitos
  rw [List.foldl_reverse]
  have hfr : ∀ l : List ℕ, l.foldr (fun x acc => 10 * acc + x) 0 = Nat.ofDigits 10 l := by
    intro l
    induction l with
    | nil => simp [Nat.ofDigits]
    | cons d resto ih =>
        simp [Nat.ofDigits_cons, ih]
        ring
  rw [hfr, Nat.ofDigits_digits]

lemma chars_nat_digitos (n : ℕ) :
    ∃ ds, digitos_de (chars_nat n) = Option.some ds ∧ valor_digitos ds = n := by
  by_cases h0 : n = 0
  · subst h0
    exact ⟨[0], by decide, by decide⟩
  · refine ⟨(Nat.digits 10 n).reverse, ?_, valor_digitos_reverse n⟩
    have hlt : ∀ d ∈ (Nat.digits 10 n).reverse, d < 10 := by
      intro d hd
      exact Nat.digits_lt_base (by norm_num) (List.mem_reverse.mp hd)
    have hne : (Nat.digits 10 n).reverse ≠ [] := by
      simp [Nat.digits_ne_nil_iff_ne_zero, h0]
    rw [chars_nat, if_neg h0]
    exact digitos_de_map _ hlt hne

lemma chars_nat_prop (n : ℕ) :
    ∀ c ∈ chars_nat n, c ≠ '.' ∧ c ≠ '-' := by
  intro c hc
  unfold chars_nat at hc
  by_cases h0 : n = 0
  · rw [if_pos h0] at hc
    simp at hc
    subst hc
    exact ⟨by decide, by decide⟩
  · rw [if_neg h0] at hc
    obtain ⟨d, hd, hcd⟩ := List.mem_map.mp hc
    have hlt : d < 10 := Nat.digits_lt_base (by norm_num) (List.mem_reverse.mp hd)
    obtain ⟨-, h1, h2⟩ := char_digito_digito d hlt
    subst hcd
    exact ⟨h1, h2⟩

lemma chars_nat_ne_nil (n : ℕ) : chars_nat n ≠ [] := by
  unfold chars_nat
  by_cases h0 : n = 0
  · simp [h0]
  · rw [if_neg h0]
    simp [Nat.digits_ne_nil_iff_ne_zero, h0]

lemma chars_dos_digitos (m : ℕ) (h : m < 100) :
    digitos_de (chars_dos m) = Option.some [m / 10, m % 10] ∧
    valor_digitos [m / 10, m % 10] = m ∧
    (∀ c ∈ chars_dos m, c ≠ '.') := by
  have h1 : m / 10 < 10 := Nat.div_lt_of_lt_mul (by omega)
  have h2 : m % 10 < 10 := Nat.mod_lt m (by norm_num)
  obtain ⟨ha1, ha2, -⟩ := char_digito_digito (m / 10) h1
  obtain ⟨hb1, hb2, -⟩ := char_digito_digito (m % 10) h2
  refine ⟨?_, ?_, ?_⟩
  · show digitos_aux [digito_char (m / 10), digito_char (m % 10)] = _
    simp [digitos_aux, ha1, hb1]
  · show 10 * (10 * 0 + m / 10) + m % 10 = m
    omega
  · intro c hc
    simp [chars_dos] at hc
    rcases hc with hc | hc <;> subst hc <;> assumption

lemma buscar_punto_append (xs ys : List Char) (h : ∀ c ∈ xs, c ≠ '.') :
    buscar_punto (xs ++ '.' :: ys) = Option.some (xs, ys) := by
  induction xs with
  | nil => simp [buscar_punto]
  | cons c resto ih =>
      have hc : c ≠ '.' := h c (by simp)
      have hr := ih (fun x hx => h x (by simp [hx]))
      simp [buscar_punto, hc, hr]

lemma parsear_pos_2f (a b : ℕ) (hb : b < 100) :
    parsear_pos (chars_nat a ++ '.' :: chars_dos b) =
      Option.some ((a : ℚ) + (b : ℚ) / 100) := by
  have hnd : ∀ c ∈ chars_nat a, c ≠ '.' := fun c hc => (chars_nat_prop a c hc).1
  have hbp := buscar_punto_append (chars_nat a) (chars_dos b) hnd
  obtain ⟨ds, hds, hval⟩ := chars_nat_digitos a
  obtain ⟨hd2, hv2, -⟩ := chars_dos_digitos b hb
  have hlen : (chars_dos b).length = 2 := rfl
  unfold parsear_pos
  rw [hbp]
  simp [hds, hd2, hval, hv2, hlen]
  norm_num

lemma sin_marcador_mk (cs : List Char) :
    sin_marcador (String.mk (cs ++ ['%'])) = String.mk cs := by
  unfold sin_marcador quitar_pct
  simp [List.getLast?_concat, List.dropLast_concat]

lemma suma_div_mod (n : ℕ) :
    ((n / 100 : ℕ) : ℚ) + ((n % 100 : ℕ) : ℚ) / 100 = (n : ℚ) / 100 := by
  have h2 : (n / 100) * 100 + n % 100 = n := by omega
  field_simp
  exact_mod_cast h2

lemma parsear_numero_neg (l : List Char) :
    parsear_numero (String.mk ('-' :: l)) = (parsear_pos l).map (fun q => -q) := by
  unfold parsear_numero
  simp

lemma parsear_numero_pos (c : Char) (l : List Char) (h : c ≠ '-') :
    parsear_numero (String.mk (c :: l)) = parsear_pos (c :: l) := by
  unfold parsear_numero
  simp [h]

lemma parsear_chars_2f (k : ℤ) :
    parsear_numero (String.mk (chars_2f ((k:ℚ)/100))) = Option.some ((k:ℚ)/100) := by
  have hmod : k.natAbs % 100 < 100 := Nat.mod_lt _ (by norm_num)
  have hpos := parsear_pos_2f (k.natAbs / 100) (k.natAbs % 100) hmod
  have hsum := suma_div_mod k.natAbs
  by_cases hneg : k < 0
  · have hcast : ((k.natAbs : ℕ) : ℚ) = -(k:ℚ) := by
      push_cast [Int.cast_natAbs]
      exact abs_of_neg (by exact_mod_cast hneg)
    have hshape : chars_2f ((k:ℚ)/100) =
        '-' :: (chars_nat (k.natAbs / 100) ++ '.' :: chars_dos (k.natAbs % 100)) := by
      simp [chars_2f, redondear_ent_par_int, hneg]
    rw [hshape, parsear_numero_neg, hpos]
    simp only [Option.map_some']
    rw [hsum, hcast]
    congr 1
    ring
  · have hcast : ((k.natAbs : ℕ) : ℚ) = (k:ℚ) := by
      push_cast [Int.cast_natAbs]
      exact abs_of_nonneg (by exact_mod_cast not_lt.mp hneg)
    have hshape : chars_2f ((k:ℚ)/100) =
        chars_nat (k.natAbs / 100) ++ '.' :: chars_dos (k.natAbs % 100) := by
      simp [chars_2f, redondear_ent_par_int, hneg]
    cases hcn : chars_nat (k.natAbs / 100) with
    | nil => exact absurd hcn (chars_nat_ne_nil _)
    | cons c cs1 =>
        have hcg : c ≠ '-' := (chars_nat_prop _ c (by rw [hcn]; simp)).2
        rw [hshape, hcn, List.cons_append, parsear_numero_pos c _ hcg,
          ← List.cons_append, ← hcn, hpos, hsum, hcast]

/-- C1: every requested ticker has an entry in the result mapping of the
batch loop, and that entry is exactly what `obtener_datos_financieros`
returns for this ticker alone — so a failure for one ticker becomes an
ErrorRecord for that ticker only and the entries of the other tickers are
unchanged; moreover a fetch failure is converted into the error record
`{"Ticker": t, "Error": razon}`. -/
theorem bucle_nunca_omite (cfg : Config) (entorno : String → Except String Snapshot)
    (tickers : List String) (t : String) (h : t ∈ tickers) :
    buscar (bucle_resultados cfg entorno tickers) t =
      Option.some (obtener_datos_financieros cfg entorno t) ∧
    (∀ razon, entorno t = Except.error razon →
      obtener_datos_financieros cfg entorno t = Registro.errorRec t razon) := by
  constructor
  · unfold bucle_resultados
    rw [buscar_foldl]
    simp [h]
  · intro razon hr
    unfold obtener_datos_financieros
    rw [cuerpo_datos_err cfg entorno t razon hr]

theorem bucle_nunca_omite_testigo :
    ("MSFT" ∈ ["AAPL", "MSFT"]) ∧
    (buscar (bucle_resultados cfg_defecto entorno_falla ["AAPL", "MSFT"]) "MSFT" =
      Option.some (obtener_datos_financieros cfg_defecto entorno_falla "MSFT") ∧
    (∀ razon, entorno_falla "MSFT" = Except.error razon →
      obtener_datos_financieros cfg_defecto entorno_falla "MSFT" =
        Registro.errorRec "MSFT" razon)) :=
  ⟨by decide, bucle_nunca_omite cfg_defecto entorno_falla ["AAPL", "MSFT"] "MSFT" (by decide)⟩

/-- C2: for every provider and every ticker, `obtener_datos_financieros`
returns the error record `{"Ticker": ticker, "Error": ...}` and never the
metrics dict: the global `calcular_crecimiento_historico` resolved at
line 121 is bound nowhere in the module, so when the fetch succeeds (and
line 115 did not already raise) a `NameError` is raised and caught by the
handler at line 165 before the dict of line 132 can be built. -/
theorem obtener_siempre_error (cfg : Config) (entorno : String → Except String Snapshot)
    (ticker : String) :
    (∃ e, obtener_datos_financieros cfg entorno ticker = Registro.errorRec ticker e) ∧
    (∀ campos, obtener_datos_financieros cfg entorno ticker ≠ Registro.metricas campos) ∧
    cargar_global "calcular_crecimiento_historico" =
      Except.error "name 'calcular_crecimiento_historico' is not defined" := by
  obtain ⟨e, he⟩ := cuerpo_datos_siempre_error cfg entorno ticker
  refine ⟨⟨e, ?_⟩, ?_, cargar_global_crecimiento⟩
  · unfold obtener_datos_financieros
    rw [he]
  · intro campos
    unfold obtener_datos_financieros
    rw [he]
    simp

/-- C3 counterexample: for a snapshot with beta = 1.0, under the default
configuration, the cost of equity actually used is 0.07, not the claimed
0.0685 — and even CAPM over the configured rates, the claim's own recipe,
gives `Rf + 1*(Rm - Rf) = Rm = 0.085`, not 0.0685. -/
theorem ke_contraejemplo :
    (locales_wacc cfg_defecto sBeta1).map LocalesWacc.ke = Except.ok (7/100) ∧
    (7:ℚ)/100 ≠ 685/10000 ∧
    cfg_defecto.Rf + 1 * (cfg_defecto.Rm - cfg_defecto.Rf) = 85/1000 ∧
    (85:ℚ)/1000 ≠ 685/10000 := by
  refine ⟨?_, by norm_num, by norm_num [cfg_defecto], by norm_num⟩
  rw [locales_sBeta1]
  norm_num [lCien, Except.map]

/-- C3 amended: the cost of equity is `rf + beta * premium` with the
hard-coded rates `rf = 0.02`, `premium = 0.05` of lines 36-37, for every
configuration (the sidebar rates are never read); with beta = 1 it equals
exactly 0.07. -/
theorem ke_constante (cfg : Config) (s : Snapshot) (l : LocalesWacc)
    (h : locales_wacc cfg s = Except.ok l) :
    l.ke = 2/100 + s.beta.getD 1 * (5/100) ∧
    (s.beta.getD 1 = 1 → l.ke = 7/100) := by
  obtain ⟨hke, -⟩ := locales_campos cfg s l h
  refine ⟨hke, fun hb => ?_⟩
  rw [hke, hb]
  norm_num

theorem ke_constante_testigo :
    locales_wacc cfg_defecto sBeta1 = Except.ok lCien ∧
    (lCien.ke = 2/100 + sBeta1.beta.getD 1 * (5/100) ∧
      (sBeta1.beta.getD 1 = 1 → lCien.ke = 7/100)) :=
  ⟨locales_sBeta1, ke_constante cfg_defecto sBeta1 lCien locales_sBeta1⟩

/-- C4 counterexample: a snapshot whose invested capital is 0 (market cap
100, every balance-sheet item missing) — the ROIC returned by
`calcular_wacc_y_roic` is the defined number 0, not a missing value. -/
theorem roic_cero_contraejemplo :
    (locales_wacc cfg_defecto sCien).map LocalesWacc.capital_invertido = Except.ok 0 ∧
    (calcular_wacc_y_roic cfg_defecto (entorno_fijo sCien) "AAPL").2.1 = Option.some 0 := by
  constructor
  · rw [locales_sCien]
    norm_num [lCien, Except.map]
  · rw [calcular_ok cfg_defecto (entorno_fijo sCien) "AAPL" sCien lCien rfl locales_sCien]
    norm_num [lCien]

/-- C4 amended: when invested capital is zero, line 64 gives ROIC the
sentinel numeric value 0, and the function returns it as a present value
(`some 0`), not as the missing marker. -/
theorem roic_centinela_cero (cfg : Config) (s : Snapshot) (l : LocalesWacc)
    (h : locales_wacc cfg s = Except.ok l) (hc : l.capital_invertido = 0) :
    l.roic = 0 ∧
    (∀ entorno : String → Except String Snapshot, ∀ t : String,
      entorno t = Except.ok s →
      (calcular_wacc_y_roic cfg entorno t).2.1 = Option.some 0) := by
  obtain ⟨-, -, -, -, hroic, -⟩ := locales_campos cfg s l h
  have h0 : l.roic = 0 := by
    rw [hroic, hc]
    simp
  refine ⟨h0, fun entorno t hent => ?_⟩
  rw [calcular_ok cfg entorno t s l hent h, ← h0]

theorem roic_centinela_cero_testigo :
    locales_wacc cfg_defecto sCien = Except.ok lCien ∧
    lCien.capital_invertido = 0 ∧
    (lCien.roic = 0 ∧
    (∀ entorno : String → Except String Snapshot, ∀ t : String,
      entorno t = Except.ok sCien →
      (calcular_wacc_y_roic cfg_defecto entorno t).2.1 = Option.some 0)) :=
  ⟨locales_sCien, rfl,
    roic_centinela_cero cfg_defecto sCien lCien locales_sCien rfl⟩

/-- C5 counterexample: even when the value-creation flag is a defined
`true` (ROIC above WACC, as in the claim's 0.079 vs 0.0685 example, whose
EVA would be `(0.079 - 0.0685) * 500 = 5.25`), the `"EVA"` field of
line 154 is the string `"N/D"`, never a number. -/
theorem eva_contraejemplo :
    eva_campo (Option.some true) = PyVal.str "N/D" ∧
    ((79:ℚ)/1000 - 685/10000) * 500 = 21/4 ∧
    PyVal.str "N/D" ≠ PyVal.num (21/4) := by
  refine ⟨rfl, by norm_num, by simp⟩

/-- C5 amended (also the reporting half of C6): the code never computes a
numeric EVA.  The `"EVA"` field of the metrics dict is the string `"N/D"`
for every value of the flag — `None`, `False`, and even `True`, because the
marker string `"Creando Valor"` is itself fed through
`redondear_y_formatear`, which maps every non-numeric value to `"N/D"`.
The product `(ROIC - WACC) * investedCapital` appears nowhere in the
module (line 67 computes the difference and discards it). -/
theorem eva_siempre_nd (creando_valor : Option Bool) :
    eva_campo creando_valor = PyVal.str "N/D" := by
  cases creando_valor with
  | none => rfl
  | some b => cases b <;> rfl

/-- C6 counterexample: a defined `False` flag (value destruction) and the
undefined flag (`None`, from a failed computation) produce the same
`"N/D"` in the reported EVA field — they are not reported differently. -/
theorem bandera_contraejemplo :
    eva_campo (Option.some false) = eva_campo Option.none ∧
    eva_campo (Option.some false) = PyVal.str "N/D" := ⟨rfl, rfl⟩

/-- C6 amended: inside the `try`-body the flag is the boolean
`roic > wacc` (computed over the sentinel-defaulted values); but in the
reported record a defined `False` is indistinguishable from the undefined
case — both render as `"N/D"`. -/
theorem bandera_valor (cfg : Config) (s : Snapshot) (l : LocalesWacc)
    (h : locales_wacc cfg s = Except.ok l) :
    l.creando_valor = decide (l.wacc < l.roic) ∧
    eva_campo (Option.some l.creando_valor) = eva_campo Option.none := by
  obtain ⟨-, -, -, -, -, hcv⟩ := locales_campos cfg s l h
  refine ⟨hcv, ?_⟩
  cases hb : l.creando_valor <;> rfl

theorem bandera_valor_testigo :
    locales_wacc cfg_defecto sCien = Except.ok lCien ∧
    (lCien.creando_valor = decide (lCien.wacc < lCien.roic) ∧
      eva_campo (Option.some lCien.creando_valor) = eva_campo Option.none) :=
  ⟨locales_sCien, bandera_valor cfg_defecto sCien lCien locales_sCien⟩

/-- C8 counterexample: with income tax 30 and EBT 100 on the statements,
the effective tax rate is 0.30 and EBIT = 50 yields NOPAT = 35, not
`50 * (1 - Tc) = 39.5` with the configured default `Tc = 0.21`. -/
theorem nopat_contraejemplo :
    (locales_wacc cfg_defecto sTasa).map LocalesWacc.nopat = Except.ok 35 ∧
    (35:ℚ) ≠ 50 * (1 - cfg_defecto.Tc) := by
  constructor
  · rw [locales_sTasa]
    norm_num [lTasa, Except.map]
  · norm_num [cfg_defecto]

/-- C8 amended: NOPAT is `EBIT * (1 - t)` where `t` is the effective tax
rate of line 55 — income tax divided by EBT, with the hard-coded fallback
0.21 when EBT is 0 — not the configured corporate tax rate, which the
function never reads. -/
theorem nopat_tasa_efectiva (cfg : Config) (s : Snapshot) (l : LocalesWacc)
    (h : locales_wacc cfg s = Except.ok l) :
    l.tasa_impuestos =
      (if s.ebt_fin.getD 0 ≠ 0 then s.impuestos_fin.getD 0 / s.ebt_fin.getD 0 else 21/100) ∧
    l.nopat = s.ebit_fin.getD 0 * (1 - l.tasa_impuestos) := by
  obtain ⟨-, ht, hn, -⟩ := locales_campos cfg s l h
  exact ⟨ht, hn⟩

theorem nopat_tasa_efectiva_testigo :
    locales_wacc cfg_defecto sTasa = Except.ok lTasa ∧
    (lTasa.tasa_impuestos =
      (if sTasa.ebt_fin.getD 0 ≠ 0 then sTasa.impuestos_fin.getD 0 / sTasa.ebt_fin.getD 0
       else 21/100) ∧
    lTasa.nopat = sTasa.ebit_fin.getD 0 * (1 - lTasa.tasa_impuestos)) :=
  ⟨locales_sTasa, nopat_tasa_efectiva cfg_defecto sTasa lTasa locales_sTasa⟩

/-- C9 counterexample: for the raw input `"aapl, AAPL, msft"` with a
maximum of 2 tickers, the loop keys are `["AAPL"]` — line 190 truncates
before any deduplication, so the duplicate eats a slot — while the claim's
recipe (deduplicate, then truncate) gives `["AAPL", "MSFT"]`. -/
theorem claves_contraejemplo :
    claves (bucle_resultados cfg_defecto entorno_falla
        (procesar_tickers "aapl, AAPL, msft" 2)) = ["AAPL"] ∧
    claves_segun_spec "aapl, AAPL, msft" 2 = ["AAPL", "MSFT"] ∧
    (["AAPL"] : List String) ≠ ["AAPL", "MSFT"] := ⟨by decide, by decide, by decide⟩

/-- C9 amended: the key sequence of the result mapping is the upper-cased,
stripped, order-preserved input tickers truncated to the maximum count
first, with duplicates then collapsed to their first occurrence by the
dict — so fewer than the maximum number of distinct tickers can survive
even when more are available. -/
theorem claves_deduplicadas (cfg : Config) (entorno : String → Except String Snapshot)
    (entrada : String) (maximo : ℕ) :
    claves (bucle_resultados cfg entorno (procesar_tickers entrada maximo)) =
      deduplicar (procesar_tickers entrada maximo) :=
  claves_bucle cfg entorno (procesar_tickers entrada maximo)

/-- C7: a series with fewer than two non-null values in the retained
window (at most four periods) makes the growth calculator return the
undefined marker; being a total function, it raises nothing. -/
theorem crecimiento_indefinido (serie : List (Option ℚ))
    (h : ((serie.take 4).filterMap id).length < 2) :
    calcular_crecimiento_historico serie = Option.none := by
  cases hr : (serie.take 4).filterMap id with
  | nil => simp [calcular_crecimiento_historico, hr]
  | cons a t =>
      cases t with
      | nil => simp [calcular_crecimiento_historico, hr]
      | cons b t2 =>
          rw [hr] at h
          simp only [List.length_cons] at h
          omega

theorem crecimiento_indefinido_testigo :
    ((([Option.some (5:ℚ)]).take 4).filterMap id).length < 2 ∧
    calcular_crecimiento_historico [Option.some (5:ℚ)] = Option.none :=
  ⟨by decide, crecimiento_indefinido [Option.some (5:ℚ)] (by decide)⟩

/-- C10: formatting a defined fractional metric `x` as a percentage string
(`redondear_y_formatear` with percentage mode), stripping the percent
marker, and parsing the remainder back as a number yields exactly the
rendered value `round(100 x, 2)` — the percentage form of `x` — which is
within half a unit of its second decimal place of `100 x`; dividing the
parsed value by 100 recovers `x` itself to the same precision. -/
theorem formato_ida_vuelta (x : ℚ) :
    redondear_y_formatear (PyVal.num x) true = PyVal.str (cadena_porcentaje x) ∧
    parsear_numero (sin_marcador (cadena_porcentaje x)) =
      Option.some (redondear2 (x * 100)) ∧
    |redondear2 (x * 100) - x * 100| ≤ 1/200 ∧
    |redondear2 (x * 100) / 100 - x| ≤ 1/20000 := by
  have hM := redondear_ent_par_cerca (x * 100 * 100)
  have hv : redondear2 (x * 100) = ((redondear_ent_par (x * 100 * 100) : ℤ) : ℚ) / 100 := rfl
  refine ⟨by simp [redondear_y_formatear], ?_, ?_, ?_⟩
  · rw [cadena_porcentaje, sin_marcador_mk, hv]
    exact parsear_chars_2f _
  · rw [hv]
    rw [show ((redondear_ent_par (x * 100 * 100) : ℤ) : ℚ) / 100 - x * 100 =
        (((redondear_ent_par (x * 100 * 100) : ℤ) : ℚ) - x * 100 * 100) / 100 from by ring]
    rw [abs_div, abs_of_nonneg (by norm_num : (0:ℚ) ≤ 100)]
    linarith
  · rw [hv]
    rw [show ((redondear_ent_par (x * 100 * 100) : ℤ) : ℚ) / 100 / 100 - x =
        (((redondear_ent_par (x * 100 * 100) : ℤ) : ℚ) - x * 100 * 100) / 10000 from by ring]
    rw [abs_div, abs_of_nonneg (by norm_num : (0:ℚ) ≤ 10000)]
    linarith
